import Mathlib

/-!
Verification of the JupyterLab command handler's compatibility-resolution and
build-state-reconciliation engine (`jupyterlab/commands.py`): the semver range
overlap test, the per-extension compatibility check, the staging package
template assembly, the build_check manifest diff, and the disabled matcher.

Python dicts are embedded as association lists with unique keys in insertion
order; raising (KeyError) code is embedded with `Option` results where the
claims depend on it.
-/

set_option autoImplicit false

namespace Ju

/-- Modelled from the spec: a parsed semantic version (the `semver` module the
source imports is not part of the sources here).  Prerelease tags are not
needed by any claim and are omitted. -/
structure SemVer where
  major : Nat
  minor : Nat
  patch : Nat
deriving DecidableEq, Repr

/-- Strict lexicographic comparison on (major, minor, patch). -/
def SemVer.ltb (a b : SemVer) : Bool :=
  a.major < b.major ||
    (a.major == b.major &&
      (a.minor < b.minor || (a.minor == b.minor && a.patch < b.patch)))

/-- `semver.lt`; the trailing argument is the `loose` flag of the source calls. -/
def lt (a b : SemVer) (_loose : Bool) : Bool := SemVer.ltb a b

/-- `semver.gt`. -/
def gt (a b : SemVer) (_loose : Bool) : Bool := SemVer.ltb b a

/-- `semver.lte`. -/
def lte (a b : SemVer) (_loose : Bool) : Bool := !SemVer.ltb b a

/-- `semver.gte`. -/
def gte (a b : SemVer) (_loose : Bool) : Bool := !SemVer.ltb a b

/-- The local `noop` helper of `_test_overlap`: always `True`. -/
def noop (_x _y : SemVer) (_z : Bool) : Bool := true

/-- The data `_test_overlap` extracts from a parsed `Range`: the semver of the
first comparator of the first segment (`set[0][0].semver`), the semver of the
last comparator of the first segment (`set[0][-1].semver`), and the operator
token of the first comparator (`set[0][0].operator`). -/
structure ParsedRange where
  x1 : SemVer
  x2 : SemVer
  op : String
deriving DecidableEq, Repr

/-- Split a character list at every dot. -/
def splitDots : List Char → List (List Char)
  | [] => [[]]
  | c :: rest =>
    let r := splitDots rest
    if c == '.' then [] :: r
    else
      match r with
      | [] => [[c]]
      | h :: t => (c :: h) :: t

/-- The numeric value of a decimal digit character. -/
def digitVal? (c : Char) : Option Nat :=
  if c.isDigit then some (c.toNat - '0'.toNat) else none

/-- Accumulate decimal digits into a number. -/
def digitsAux : List Char → Nat → Option Nat
  | [], acc => some acc
  | c :: rest, acc =>
    match digitVal? c with
    | some d => digitsAux rest (acc * 10 + d)
    | none => none

/-- Read a nonempty all-digit character list as a number. -/
def digitsToNat? : List Char → Option Nat
  | [] => none
  | cs => digitsAux cs 0

/-- Parse a dotted `major.minor.patch` version literal. -/
def parseVersionChars (cs : List Char) : Option SemVer :=
  match splitDots cs with
  | [a, b, c] =>
    match digitsToNat? a, digitsToNat? b, digitsToNat? c with
    | some ma, some mi, some pa => some (SemVer.mk ma mi pa)
    | _, _, _ => none
  | _ => none

/-- Whether a string starts with the given character (the source's
`str.startswith` on the one-character prefixes `<` and `>`). -/
def startsWithChar (s : String) (c : Char) : Bool :=
  match s.data with
  | [] => false
  | c2 :: _ => c2 == c

/-- The upper bound a caret range excludes: `^1.2.3` means `< 2.0.0`,
`^0.1.2` means `< 0.2.0`, `^0.0.3` means `< 0.0.4`. -/
def caretUpper (v : SemVer) : SemVer :=
  if v.major > 0 then SemVer.mk (v.major + 1) 0 0
  else if v.minor > 0 then SemVer.mk 0 (v.minor + 1) 0
  else SemVer.mk 0 0 (v.patch + 1)

/-- Modelled from the spec: the semver `Range` constructor (the `semver`
module is not part of the sources here).  `parse(spec) -> Range | Empty`
normalizes a spec to a single interval: low bound `x1`, high bound `x2`
(equal when the spec pins an exact version), and the comparator token of the
first bound.  An exact pin carries the empty comparator; a caret range
normalizes to `>=` low with the caret's excluded upper as high bound; a
single-comparator spec has both bounds equal to its version.  Empty or
unrecognized specs give the empty range (`none`). -/
def rangeParseChars : List Char → Option ParsedRange
  | '^' :: rest => (parseVersionChars rest).map (fun v => ParsedRange.mk v (caretUpper v) ">=")
  | '>' :: '=' :: rest => (parseVersionChars rest).map (fun v => ParsedRange.mk v v ">=")
  | '<' :: '=' :: rest => (parseVersionChars rest).map (fun v => ParsedRange.mk v v "<=")
  | '>' :: rest => (parseVersionChars rest).map (fun v => ParsedRange.mk v v ">")
  | '<' :: rest => (parseVersionChars rest).map (fun v => ParsedRange.mk v v "<")
  | '=' :: rest => (parseVersionChars rest).map (fun v => ParsedRange.mk v v "=")
  | cs => (parseVersionChars cs).map (fun v => ParsedRange.mk v v "")

/-- `Range(spec, True)` as consumed by `_test_overlap`. -/
def Range_parse (spec : String) : Option ParsedRange :=
  rangeParseChars spec.data

/-- The boundary-containment body of `_test_overlap`, reached once both
ranges are nonempty and neither low-bound comparator starts with `<`.
Transcribed bit-exactly from the source; in particular `gy` is keyed on
`x1 == x2` there (where the surrounding pattern uses the second range's
`y1 == y2` for `ly`). -/
def overlapBody (r1 r2 : ParsedRange) : Bool :=
  let x1 := r1.x1
  let x2 := r1.x2
  let y1 := r2.x1
  let y2 := r2.x2
  let o1 := r1.op
  let o2 := r2.op
  let lx0 := if x1 == x2 then lte else lt
  let ly0 := if y1 == y2 then lte else lt
  let gx := if x1 == x2 then gte else gt
  let gy := if x1 == x2 then gte else gt
  let lx := if x1 == x2 && startsWithChar o1 '>' then noop else lx0
  let ly := if y1 == y2 && startsWithChar o2 '>' then noop else ly0
  (gte x1 y1 true && ly x1 y2 true) ||
  (gy x2 y1 true && ly x2 y2 true) ||
  (gte y1 x1 true && lx y1 x2 true) ||
  (gx y2 x1 true && lx y2 x2 true)

/-- `_test_overlap` on the parse results: `none` when either range is empty
or either low-bound comparator starts with `<`, otherwise the boolean
boundary-containment result. -/
def _test_overlap_ranges : Option ParsedRange → Option ParsedRange → Option Bool
  | none, _ => none
  | some _, none => none
  | some r1, some r2 =>
    if startsWithChar r1.op '<' || startsWithChar r2.op '<' then none
    else some (overlapBody r1 r2)

/-- `_test_overlap(spec1, spec2)`: test whether two version specs overlap,
`None` when compatibility cannot be determined. -/
def _test_overlap (spec1 spec2 : String) : Option Bool :=
  _test_overlap_ranges (Range_parse spec1) (Range_parse spec2)

/-! ## Python dicts as association lists

Dicts are embedded as `List (key × value)` in insertion order; a dict proper
never has two bindings for one key, which assignment-built lists preserve via
`dictInsert`. -/

/-- `d[key]` as an `Option`: the first binding for `key`. -/
def dictLookup {α : Type} : List (String × α) → String → Option α
  | [], _ => none
  | (k, v) :: rest, key => if k == key then some v else dictLookup rest key

/-- `key in d`. -/
def dictContains {α : Type} (d : List (String × α)) (key : String) : Bool :=
  (dictLookup d key).isSome

/-- `d[key] = val`: overwrite in place, or append a new binding. -/
def dictInsert {α : Type} : List (String × α) → String → α → List (String × α)
  | [], key, val => [(key, val)]
  | (k, v) :: rest, key, val =>
    if k == key then (k, val) :: rest else (k, v) :: dictInsert rest key val

/-- `d.pop(key)`: `none` models the `KeyError` when the key is absent. -/
def dictPop {α : Type} : List (String × α) → String → Option (List (String × α))
  | [], _ => none
  | (k, v) :: rest, key =>
    if k == key then some rest
    else (dictPop rest key).map (fun l => (k, v) :: l)

/-! ## The core manifest and the compatibility resolver -/

/-- The `jupyterlab` block of a package.json document, with the fields the
embedded operations read. -/
structure JlabData where
  version : String
  extensions : List (String × String)
  mimeExtensions : List (String × String)
  singletonPackages : List String
  linkedPackages : List (String × String)
deriving DecidableEq, Repr

/-- A package.json document (the core template, or the built snapshot under
`static/`). -/
structure PackageData where
  dependencies : List (String × String)
  jupyterlab : JlabData
deriving DecidableEq, Repr

/-- The loop of `_validate_compatibility` over the extension's dependency
items; `none` models the `KeyError` raised when a singleton dependency is
missing from the core dependency map. -/
def validateLoop (core_deps : List (String × String)) (singletons : List String) :
    List (String × String) → Option (List (String × String × String))
  | [] => some []
  | (key, value) :: rest =>
    if singletons.contains key then
      match dictLookup core_deps key with
      | none => none
      | some pin =>
        match validateLoop core_deps singletons rest with
        | none => none
        | some errors =>
          if _test_overlap pin value == some false then
            some ((key, pin, value) :: errors)
          else
            some errors
    else
      validateLoop core_deps singletons rest

/-- `_validate_compatibility(extension, deps, core_data)`: the conflict
triples `(packageName, corePin, requiredRange)` for every dependency that is
a core singleton whose pinned range provably fails to overlap the required
range.  The `extension` argument is unused, as in the source. -/
def _validate_compatibility (extension : String) (deps : List (String × String))
    (core_data : PackageData) : Option (List (String × String × String)) :=
  let core_deps := core_data.dependencies
  let singletons := core_data.jupyterlab.singletonPackages
  validateLoop core_deps singletons deps

/-! ## The application info snapshot and the package template -/

/-- A JSON field that may be absent, a boolean, or a string: the shape of
`value['jupyterlab'].get('extension', False)` / `.get('mimeExtension', False)`. -/
inductive EntryField where
  | absent
  | boolVal (b : Bool)
  | strVal (s : String)
deriving DecidableEq, Repr

/-- The entry-point normalization of `_get_package_template`: falsy values
(`False`, the empty string, absence) are skipped, `True` becomes `''`, and a
nonempty string is kept. -/
def EntryField.toEntry : EntryField → Option String
  | .absent => none
  | .boolVal false => none
  | .boolVal true => some ""
  | .strVal "" => none
  | .strVal s => some s

/-- One record of `info['extensions']`, as built by `_get_extensions_in_dir`. -/
structure ExtensionInfo where
  path : String
  filename : String
  version : String
  jupyterlabExtension : EntryField
  jupyterlabMimeExtension : EntryField
  dependencies : List (String × String)
deriving DecidableEq, Repr

/-- One record of `info['linked_packages']`. -/
structure LinkedItem where
  source : String
  filename : String
deriving DecidableEq, Repr

/-- The cached `self.info` snapshot built once by `_get_app_info`, restricted
to the fields the embedded operations read.  `version` is
`core_data['jupyterlab']['version']` at snapshot time. -/
structure AppInfo where
  core_data : PackageData
  local_extensions : List (String × String)
  linked_packages : List (String × LinkedItem)
  extensions : List (String × ExtensionInfo)
  uninstalled_core : List String
  version : String
deriving DecidableEq, Repr

/-- The loop of `_get_extension_compat`: per-extension conflict lists against
the cached core data. -/
def compatLoop (core_data : PackageData) :
    List (String × ExtensionInfo) →
    Option (List (String × List (String × String × String)))
  | [] => some []
  | (name, data) :: rest =>
    match _validate_compatibility name data.dependencies core_data with
    | none => none
    | some errors =>
      match compatLoop core_data rest with
      | none => none
      | some compat => some ((name, errors) :: compat)

/-- `_get_extension_compat()`. -/
def _get_extension_compat (info : AppInfo) :
    Option (List (String × List (String × String × String))) :=
  compatLoop info.core_data info.extensions

/-- The extension loop of `_get_package_template`: extensions with
compatibility errors are skipped (their warning is only logged); the others
add a file-reference dependency pin and register their entry points. -/
def extLoop (compat : List (String × List (String × String × String)))
    (format_path : String → String) :
    List (String × ExtensionInfo) → PackageData → PackageData
  | [], data => data
  | (key, value) :: rest, data =>
    let errors := (dictLookup compat key).getD []
    let data :=
      if errors.isEmpty then
        let data :=
          { data with dependencies := dictInsert data.dependencies key (format_path value.path) }
        let data :=
          match value.jupyterlabExtension.toEntry with
          | none => data
          | some e =>
            { data with jupyterlab :=
              { data.jupyterlab with extensions := dictInsert data.jupyterlab.extensions key e } }
        let data :=
          match value.jupyterlabMimeExtension.toEntry with
          | none => data
          | some e =>
            { data with jupyterlab :=
              { data.jupyterlab with
                  mimeExtensions := dictInsert data.jupyterlab.mimeExtensions key e } }
        data
      else data
    extLoop compat format_path rest data

/-- The local-extension loop: each local override is recorded under
`jupyterlab.linkedPackages` with its original source path. -/
def localLoop : List (String × String) → PackageData → PackageData
  | [], data => data
  | (key, source) :: rest, data =>
    localLoop rest
      { data with jupyterlab :=
        { data.jupyterlab with
            linkedPackages := dictInsert data.jupyterlab.linkedPackages key source } }

/-- The linked-package loop: a dependency pin on the packaged copy (the path
join under `staging/linked_packages` is collapsed into the path formatter)
and a `linkedPackages` record of the original source. -/
def linkedLoop (format_path : String → String) :
    List (String × LinkedItem) → PackageData → PackageData
  | [], data => data
  | (key, item) :: rest, data =>
    let data :=
      { data with dependencies := dictInsert data.dependencies key (format_path item.filename) }
    let data :=
      { data with jupyterlab :=
        { data.jupyterlab with
            linkedPackages := dictInsert data.jupyterlab.linkedPackages key item.source } }
    linkedLoop format_path rest data

/-- The uninstalled-core loop: each name is popped from `extensions` when
present there, otherwise from `mimeExtensions`, and always from
`dependencies`; `none` models the `KeyError` a missing pop raises. -/
def uninstalledLoop : List String → PackageData → Option PackageData
  | [], data => some data
  | item :: rest, data =>
    let jl? : Option JlabData :=
      match dictPop data.jupyterlab.extensions item with
      | some exts => some { data.jupyterlab with extensions := exts }
      | none =>
        match dictPop data.jupyterlab.mimeExtensions item with
        | some mexts => some { data.jupyterlab with mimeExtensions := mexts }
        | none => none
    match jl? with
    | none => none
    | some jl =>
      match dictPop data.dependencies item with
      | none => none
      | some deps => uninstalledLoop rest { data with jupyterlab := jl, dependencies := deps }

/-- `_get_package_template(silent)`.  The source binds
`data = self.info['core_data']` without copying, so every update lands on the
cached snapshot: the returned pair carries the resulting template together
with the resulting `self.info`, whose `core_data` is that same template.
`format_path` stands for the staging-relative `file:` formatting, which
depends on the directory layout.  The `silent` flag only suppresses logging
and does not affect the returned value. -/
def _get_package_template (info : AppInfo) (format_path : String → String)
    (silent : Bool) : Option (PackageData × AppInfo) :=
  match _get_extension_compat info with
  | none => none
  | some compat_errors =>
    let data := info.core_data
    let data := extLoop compat_errors format_path info.extensions data
    let data := { data with jupyterlab := { data.jupyterlab with linkedPackages := [] } }
    let data := localLoop info.local_extensions data
    let data := linkedLoop format_path info.linked_packages data
    match uninstalledLoop info.uninstalled_core data with
    | none => none
    | some data => some (data, { info with core_data := data })

/-! ## build_check -/

/-- Modelled from the spec: versions are compared "as parsed version numbers,
not strings" (`distutils.version.LooseVersion` in the source, which is not
part of the sources here).  Components are split at dots and compared
numerically. -/
def looseComponents (s : String) : List Nat :=
  (splitDots s.data).map (fun cs => (digitsToNat? cs).getD 0)

/-- `LooseVersion(a) != LooseVersion(b)`. -/
def looseVersionNe (a b : String) : Bool :=
  looseComponents a != looseComponents b

/-- The per-kind addition messages of `build_check`: names present in the
fresh template but absent from the built snapshot. -/
def includedMsgs (newExts oldExts : List (String × String)) : List String :=
  (newExts.filter (fun kv => !(dictContains oldExts kv.1))).map
    (fun kv => kv.1 ++ " needs to be included")

/-- The per-kind removal messages: names present in the built snapshot but
absent from the fresh template. -/
def removedMsgs (newExts oldExts : List (String × String)) : List String :=
  (oldExts.filter (fun kv => !(dictContains newExts kv.1))).map
    (fun kv => kv.1 ++ " needs to be removed")

/-- The dependency-pin diff: pins present in both maps, excluding local and
linked packages, whose version string changed. -/
def depChangedMsgs (old_deps new_deps : List (String × String))
    (localKeys linkedKeys : List String) : List String :=
  new_deps.filterMap (fun kv =>
    match dictLookup old_deps kv.1 with
    | none => none
    | some oldv =>
      if localKeys.contains kv.1 || linkedKeys.contains kv.1 then none
      else if oldv != kv.2 then
        some (kv.1 ++ " changed from " ++ oldv ++ " to " ++ kv.2)
      else none)

/-- The local-extension content check (skipped entirely in fast mode);
`check` abstracts the `_check_local` collaborator, which repacks the source
and compares against the copy on disk. -/
def localChangedMsgs (check : String → String → Bool) (fast : Bool)
    (local_exts : List (String × String)) : List String :=
  if fast then []
  else (local_exts.filter (fun kv => check kv.1 kv.2)).map
    (fun kv => kv.1 ++ " content changed")

/-- The linked-package content check (skipped entirely in fast mode). -/
def linkedChangedMsgs (check : String → String → Bool) (fast : Bool)
    (linked : List (String × LinkedItem)) : List String :=
  if fast then []
  else (linked.filter (fun kv => check kv.1 kv.2.source)).map
    (fun kv => kv.1 ++ " content changed")

/-- The inputs `build_check` reads: the cached info snapshot, the parsed
contents of `static/package.json` (`none` when no built application exists),
the `_check_local` collaborator, and the path formatter. -/
structure BuildCheckEnv where
  info : AppInfo
  static_pkg : Option PackageData
  check_local : String → String → Bool
  format_path : String → String

/-- `build_check(fast)`: the ordered list of rebuild reasons.  Note that the
source reads both sides of its version comparison from `old_jlab`, the
snapshot's own block (`static_version = old_jlab.get('version', '')`,
`core_version = old_jlab['version']`). -/
def build_check (env : BuildCheckEnv) (fast : Bool) : Option (List String) :=
  let local_exts := env.info.local_extensions
  let linked := env.info.linked_packages
  match env.static_pkg with
  | none => some ["No built application"]
  | some static_data =>
    let old_jlab := static_data.jupyterlab
    let old_deps := static_data.dependencies
    let static_version := old_jlab.version
    let core_version := old_jlab.version
    if looseVersionNe static_version core_version then
      some ["Version mismatch: " ++ static_version ++ " (built), " ++
            core_version ++ " (current)"]
    else
      match _get_package_template env.info env.format_path fast with
      | none => none
      | some (new_package, _newInfo) =>
        let new_jlab := new_package.jupyterlab
        let new_deps := new_package.dependencies
        some (
          includedMsgs new_jlab.extensions old_jlab.extensions ++
          removedMsgs new_jlab.extensions old_jlab.extensions ++
          includedMsgs new_jlab.mimeExtensions old_jlab.mimeExtensions ++
          removedMsgs new_jlab.mimeExtensions old_jlab.mimeExtensions ++
          depChangedMsgs old_deps new_deps (local_exts.map Prod.fst) (linked.map Prod.fst) ++
          localChangedMsgs env.check_local fast local_exts ++
          linkedChangedMsgs env.check_local fast linked)

/-! ## The disabled matcher -/

/-- Modelled from the spec: `re.compile(pattern).match(name)` is
prefix-anchored, not full-string; for the metacharacter-free patterns
considered here it holds exactly when the pattern is a prefix of the name. -/
def reMatch (pat : String) (name : String) : Bool :=
  pat.data.isPrefixOf name.data

/-- `_is_disabled(name, disabled)`: true when some entry equals the name
exactly or matches it as a prefix-anchored regular expression. -/
def _is_disabled (name : String) (disabled : List String) : Bool :=
  disabled.any (fun pat => name == pat || reMatch pat name)

/-! ## Concrete fixtures -/

/-- A core template pinning singleton `s` at `^2.0.0`. -/
def coreHost2 : PackageData :=
  { dependencies := [("s", "^2.0.0")]
    jupyterlab :=
      { version := "1.0.0"
        extensions := []
        mimeExtensions := []
        singletonPackages := ["s"]
        linkedPackages := [] } }

/-- A core template that lists `s` as a singleton but carries no dependency
pin for it. -/
def coreNoPin : PackageData :=
  { dependencies := []
    jupyterlab :=
      { version := "1.0.0"
        extensions := []
        mimeExtensions := []
        singletonPackages := ["s"]
        linkedPackages := [] } }

/-- The staging-relative `file:` path formatter used by the fixtures. -/
def fmtFile (path : String) : String := "file:" ++ path

/-- A built snapshot recording host version `1.0.0`, extensions `A`, no
mime extensions and a single dependency pin. -/
def staticOld : PackageData :=
  { dependencies := [("p", "^1.0.0")]
    jupyterlab :=
      { version := "1.0.0"
        extensions := [("A", "")]
        mimeExtensions := []
        singletonPackages := []
        linkedPackages := [] } }

/-- An info snapshot whose current core version is `2.0.0` and whose
template resolves to the same extensions and pins `staticOld` records. -/
def infoVer2 : AppInfo :=
  { core_data :=
      { dependencies := [("p", "^1.0.0")]
        jupyterlab :=
          { version := "2.0.0"
            extensions := [("A", "")]
            mimeExtensions := []
            singletonPackages := []
            linkedPackages := [] } }
    local_extensions := []
    linked_packages := []
    extensions := []
    uninstalled_core := []
    version := "2.0.0" }

/-- The build_check inputs for the version-skew scenario: the snapshot was
built by host `1.0.0`, the current core is `2.0.0`, and nothing else
differs. -/
def envVerSkew : BuildCheckEnv :=
  { info := infoVer2
    static_pkg := some staticOld
    check_local := fun _ _ => false
    format_path := fmtFile }

/-- An info snapshot whose template resolves core extensions `A` and `C`. -/
def infoAC : AppInfo :=
  { core_data :=
      { dependencies := []
        jupyterlab :=
          { version := "1.0.0"
            extensions := [("A", ""), ("C", "")]
            mimeExtensions := []
            singletonPackages := []
            linkedPackages := [] } }
    local_extensions := []
    linked_packages := []
    extensions := []
    uninstalled_core := []
    version := "1.0.0" }

/-- A built snapshot recording extensions `A` and `B` at the same host
version. -/
def staticAB : PackageData :=
  { dependencies := []
    jupyterlab :=
      { version := "1.0.0"
        extensions := [("A", ""), ("B", "")]
        mimeExtensions := []
        singletonPackages := []
        linkedPackages := [] } }

/-- The build_check inputs for the extension-diff scenario: snapshot has
`{A, B}`, the current resolution yields `{A, C}`. -/
def envDiffAC : BuildCheckEnv :=
  { info := infoAC
    static_pkg := some staticAB
    check_local := fun _ _ => false
    format_path := fmtFile }

/-- An info snapshot with core extension `A` uninstalled: building the
template must drop `A` from the core template's extension and dependency
maps. -/
def infoUninstA : AppInfo :=
  { core_data :=
      { dependencies := [("A", "~1.0.0")]
        jupyterlab :=
          { version := "1.0.0"
            extensions := [("A", "")]
            mimeExtensions := []
            singletonPackages := []
            linkedPackages := [] } }
    local_extensions := []
    linked_packages := []
    extensions := []
    uninstalled_core := ["A"]
    version := "1.0.0" }

/-- The template `_get_package_template` produces from `infoUninstA`: core
extension `A` and its dependency pin are gone. -/
def tmplUninstA : PackageData :=
  { dependencies := []
    jupyterlab :=
      { version := "1.0.0"
        extensions := []
        mimeExtensions := []
        singletonPackages := []
        linkedPackages := [] } }

/-- The cached info after one `_get_package_template` run on `infoUninstA`:
its `core_data` is the already-stripped template. -/
def infoUninstA2 : AppInfo :=
  { core_data := tmplUninstA
    local_extensions := []
    linked_packages := []
    extensions := []
    uninstalled_core := ["A"]
    version := "1.0.0" }

/-! ## Helper lemmas -/

theorem looseVersionNe_self (s : String) : looseVersionNe s s = false := by
  simp [looseVersionNe]

theorem overlap_ranges_some (r1 r2 : ParsedRange)
    (h1 : startsWithChar r1.op '<' = false)
    (h2 : startsWithChar r2.op '<' = false) :
    _test_overlap_ranges (some r1) (some r2) = some (overlapBody r1 r2) := by
  simp [_test_overlap_ranges, h1, h2]

theorem dictContains_of_mem {α : Type} (l : List (String × α)) (k : String) (v : α) :
    (k, v) ∈ l → dictContains l k = true := by
  induction l with
  | nil => intro h; simp at h
  | cons kv rest ih =>
    intro h
    rcases List.mem_cons.mp h with h | h
    · simp [← h, dictContains, dictLookup]
    · by_cases hk : (kv.1 == k) = true
      · simp [dictContains, dictLookup, hk]
      · have := ih h
        simp only [dictContains, dictLookup, if_neg hk]
        simpa [dictContains] using this

theorem dictLookup_of_mem_nodup {α : Type} (l : List (String × α)) (k : String) (v : α)
    (hnd : (l.map Prod.fst).Nodup) : (k, v) ∈ l → dictLookup l k = some v := by
  induction l with
  | nil => intro h; simp at h
  | cons kv rest ih =>
    intro h
    simp only [List.map_cons, List.nodup_cons] at hnd
    rcases List.mem_cons.mp h with h | h
    · simp [← h, dictLookup]
    · have hne : ¬(kv.1 == k) = true := by
        intro hbeq
        exact hnd.1 (by
          rw [show k = kv.1 from (eq_of_beq hbeq).symm] at h
          exact List.mem_map.mpr ⟨(kv.1, v), h, rfl⟩)
      simp only [dictLookup, if_neg hne]
      exact ih hnd.2 h

theorem includedMsgs_self (l : List (String × String)) : includedMsgs l l = [] := by
  have hfil : l.filter (fun kv => !(dictContains l kv.1)) = [] := by
    rw [List.filter_eq_nil_iff]
    intro kv hkv
    simp [dictContains_of_mem l kv.1 kv.2 hkv]
  simp [includedMsgs, hfil]

theorem removedMsgs_self (l : List (String × String)) : removedMsgs l l = [] := by
  have hfil : l.filter (fun kv => !(dictContains l kv.1)) = [] := by
    rw [List.filter_eq_nil_iff]
    intro kv hkv
    simp [dictContains_of_mem l kv.1 kv.2 hkv]
  simp [removedMsgs, hfil]

theorem depChangedMsgs_self (l : List (String × String)) (a b : List String)
    (hnd : (l.map Prod.fst).Nodup) : depChangedMsgs l l a b = [] := by
  rw [depChangedMsgs, List.filterMap_eq_nil_iff]
  intro kv hkv
  rw [dictLookup_of_mem_nodup l kv.1 kv.2 hnd hkv]
  by_cases hl : (a.contains kv.1 || b.contains kv.1) = true <;> simp [hl]

theorem validateLoop_mem (cd : List (String × String)) (sg : List String)
    (deps : List (String × String)) (l : List (String × String × String))
    (k pin v : String) :
    validateLoop cd sg deps = some l →
    ((k, pin, v) ∈ l ↔
      ((k, v) ∈ deps ∧ sg.contains k = true ∧ dictLookup cd k = some pin ∧
        _test_overlap pin v = some false)) := by
  induction deps generalizing l with
  | nil =>
    intro h
    simp only [validateLoop, Option.some_inj] at h
    simp [← h]
  | cons kv rest ih =>
    intro h
    obtain ⟨key, value⟩ := kv
    simp only [validateLoop] at h
    by_cases hsg : sg.contains key = true
    · rw [if_pos hsg] at h
      cases hcd : dictLookup cd key with
      | none => rw [hcd] at h; exact absurd h (by simp)
      | some cpin =>
        rw [hcd] at h
        cases hrec : validateLoop cd sg rest with
        | none => rw [hrec] at h; exact absurd h (by simp)
        | some errors =>
          rw [hrec] at h
          dsimp only at h
          have iherr := ih errors hrec
          by_cases hov : (_test_overlap cpin value == some false) = true
          · rw [if_pos hov] at h
            have hl : l = (key, cpin, value) :: errors := by
              simpa [eq_comm] using h
            subst hl
            constructor
            · intro hmem
              rcases List.mem_cons.mp hmem with heq | hmem
              · have h1 : k = key := congrArg Prod.fst heq
                have h2 : pin = cpin := congrArg (fun x => x.2.1) heq
                have h3 : v = value := congrArg (fun x => x.2.2) heq
                subst h1; subst h2; subst h3
                exact ⟨List.mem_cons_self _ _, hsg, hcd, beq_iff_eq.mp hov⟩
              · obtain ⟨hm, hs, hc, ho⟩ := iherr.mp hmem
                exact ⟨List.mem_cons_of_mem _ hm, hs, hc, ho⟩
            · rintro ⟨hmem, hs, hc, ho⟩
              rcases List.mem_cons.mp hmem with heq | hmem
              · have hk : k = key := congrArg Prod.fst heq
                have hv : v = value := congrArg Prod.snd heq
                subst hk; subst hv
                have : pin = cpin := by
                  rw [hcd] at hc
                  exact (Option.some_inj.mp hc).symm
                subst this
                exact List.mem_cons_self _ _
              · exact List.mem_cons_of_mem _ (iherr.mpr ⟨hmem, hs, hc, ho⟩)
          · rw [if_neg hov] at h
            have hl : l = errors := by simpa [eq_comm] using h
            subst hl
            rw [iherr]
            constructor
            · rintro ⟨hm, hs, hc, ho⟩
              exact ⟨List.mem_cons_of_mem _ hm, hs, hc, ho⟩
            · rintro ⟨hmem, hs, hc, ho⟩
              rcases List.mem_cons.mp hmem with heq | hmem
              · exfalso
                have hk : k = key := congrArg Prod.fst heq
                have hv : v = value := congrArg Prod.snd heq
                subst hk; subst hv
                have : pin = cpin := by
                  rw [hcd] at hc
                  exact (Option.some_inj.mp hc).symm
                subst this
                exact hov (beq_iff_eq.mpr ho)
              · exact ⟨hmem, hs, hc, ho⟩
    · rw [if_neg hsg] at h
      have iherr := ih l h
      rw [iherr]
      constructor
      · rintro ⟨hm, hs, hc, ho⟩
        exact ⟨List.mem_cons_of_mem _ hm, hs, hc, ho⟩
      · rintro ⟨hmem, hs, hc, ho⟩
        rcases List.mem_cons.mp hmem with heq | hmem
        · exfalso
          have hk : k = key := congrArg Prod.fst heq
          subst hk
          exact hsg hs
        · exact ⟨hmem, hs, hc, ho⟩

theorem validateLoop_total (cd : List (String × String)) (sg : List String)
    (deps : List (String × String)) :
    (∀ kv ∈ deps, sg.contains kv.1 = true → (dictLookup cd kv.1).isSome = true) →
    ∃ l, validateLoop cd sg deps = some l := by
  induction deps with
  | nil => intro _; exact ⟨[], rfl⟩
  | cons kv rest ih =>
    intro hpre
    obtain ⟨key, value⟩ := kv
    obtain ⟨l, hl⟩ := ih (fun kv hkv => hpre kv (List.mem_cons_of_mem _ hkv))
    simp only [validateLoop]
    by_cases hsg : sg.contains key = true
    · rw [if_pos hsg]
      have : (dictLookup cd key).isSome = true :=
        hpre (key, value) (List.mem_cons_self _ _) hsg
      cases hcd : dictLookup cd key with
      | none => rw [hcd] at this; simp at this
      | some cpin =>
        rw [hl]
        dsimp only
        by_cases hov : (_test_overlap cpin value == some false) = true
        · exact ⟨_, by rw [if_pos hov]⟩
        · exact ⟨_, by rw [if_neg hov]⟩
    · rw [if_neg hsg]
      exact ⟨l, hl⟩

/-! ## Claims -/

/-- C1: the overlap test is claimed symmetric for every pair of specs; on the
code it is not.  `_test_overlap("^1.0.0", "2.0.0")` is `False` while the
swapped call `_test_overlap("2.0.0", "^1.0.0")` is `True`: the source keys
the upper-bound comparison `gy` of the first range on the first range's own
exact-pin test `x1 == x2` instead of the second's, breaking the symmetry of
the four boundary checks. -/
theorem claim_C1 :
    _test_overlap "^1.0.0" "2.0.0" = some false ∧
    _test_overlap "2.0.0" "^1.0.0" = some true :=
  ⟨by decide, by decide⟩

/-- C2: a built snapshot recording host version `1.0.0` against a current
core version `2.0.0` is claimed to produce the single version-mismatch
reason; on the code it does not.  `build_check` reads both sides of the
comparison from the snapshot's own `jupyterlab` block, so the parsed versions
it compares are always equal, the mismatch branch is unreachable, and the
remaining diffing runs (here yielding no reasons at all). -/
theorem claim_C2 :
    envVerSkew.static_pkg = some staticOld ∧
    staticOld.jupyterlab.version = "1.0.0" ∧
    envVerSkew.info.version = "2.0.0" ∧
    envVerSkew.info.core_data.jupyterlab.version = "2.0.0" ∧
    looseVersionNe "1.0.0" "2.0.0" = true ∧
    build_check envVerSkew false = some [] :=
  ⟨rfl, rfl, rfl, rfl, by decide, by decide⟩

/-- C4: `_validate_compatibility` emits the conflict triple
`(packageName, hostPin, requiredRange)` for a dependency exactly when the
package is a core singleton and the overlap test on the host pin against the
required range is definitely `false` — an indeterminate overlap never
produces a conflict — and the host pin `^2.0.0` against required `^3.0.0`
yields exactly that one conflict. -/
theorem claim_C4 :
    (∀ (ext : String) (deps : List (String × String)) (core : PackageData)
        (l : List (String × String × String)),
        _validate_compatibility ext deps core = some l →
        ∀ k pin v : String,
          ((k, pin, v) ∈ l ↔
            ((k, v) ∈ deps ∧ core.jupyterlab.singletonPackages.contains k = true ∧
              dictLookup core.dependencies k = some pin ∧
              _test_overlap pin v = some false))) ∧
    _validate_compatibility "E" [("s", "^3.0.0")] coreHost2 =
      some [("s", "^2.0.0", "^3.0.0")] :=
  ⟨fun _ext deps core l h k pin v =>
    validateLoop_mem core.dependencies core.jupyterlab.singletonPackages deps l k pin v h,
   by decide⟩

/-- C4 witness: the characterization applied to the concrete disjoint-caret
resolution. -/
theorem claim_C4_witness :
    ("s", "^2.0.0", "^3.0.0") ∈ ([("s", "^2.0.0", "^3.0.0")] :
        List (String × String × String)) ↔
      (("s", "^3.0.0") ∈ ([("s", "^3.0.0")] : List (String × String)) ∧
        coreHost2.jupyterlab.singletonPackages.contains "s" = true ∧
        dictLookup coreHost2.dependencies "s" = some "^2.0.0" ∧
        _test_overlap "^2.0.0" "^3.0.0" = some false) :=
  claim_C4.1 "E" [("s", "^3.0.0")] coreHost2 [("s", "^2.0.0", "^3.0.0")]
    (by decide) "s" "^2.0.0" "^3.0.0"

/-- C5 counterexample: the claim says a pure lower-bound-only spec such as
`>1.0.0` always yields indeterminate (`None`); on the code
`_test_overlap("^0.1.0", ">1.0.0")` is `False` — a definite answer that the
resolver does record as a hard conflict — and
`_test_overlap(">1.0.0", "^1.0.0")` is `True`. -/
theorem claim_C5_counterexample :
    _test_overlap "^0.1.0" ">1.0.0" = some false ∧
    _test_overlap ">1.0.0" "^1.0.0" = some true :=
  ⟨by decide, by decide⟩

/-- C5 (amended): a pure lower-bound-only spec such as `>1.0.0` is treated
as unbounded above, not as indeterminate: paired on either side with any spec
whose parse is nonempty and whose low-bound comparator does not start with
`<`, `_test_overlap` returns a definite boolean — which can be `false`, so a
hard conflict for such a dependency is possible. -/
theorem claim_C5 :
    ∀ (s : String) (r : ParsedRange),
      Range_parse s = some r → startsWithChar r.op '<' = false →
      (∃ b, _test_overlap s ">1.0.0" = some b) ∧
      (∃ b, _test_overlap ">1.0.0" s = some b) := by
  intro s r hparse hop
  have hgt : Range_parse ">1.0.0" =
      some (ParsedRange.mk (SemVer.mk 1 0 0) (SemVer.mk 1 0 0) ">") := by decide
  have hgtop : startsWithChar (ParsedRange.mk (SemVer.mk 1 0 0) (SemVer.mk 1 0 0) ">").op '<' =
      false := by decide
  constructor
  · exact ⟨overlapBody r (ParsedRange.mk (SemVer.mk 1 0 0) (SemVer.mk 1 0 0) ">"), by
      unfold _test_overlap
      rw [hparse, hgt]
      exact overlap_ranges_some _ _ hop hgtop⟩
  · exact ⟨overlapBody (ParsedRange.mk (SemVer.mk 1 0 0) (SemVer.mk 1 0 0) ">") r, by
      unfold _test_overlap
      rw [hparse, hgt]
      exact overlap_ranges_some _ _ hgtop hop⟩

/-- C5 witness: instantiated at `^0.1.0`, whose parse is the nonempty range
`>=0.1.0 <0.2.0`. -/
theorem claim_C5_witness :
    (∃ b, _test_overlap "^0.1.0" ">1.0.0" = some b) ∧
    (∃ b, _test_overlap ">1.0.0" "^0.1.0" = some b) :=
  claim_C5 "^0.1.0" (ParsedRange.mk (SemVer.mk 0 1 0) (SemVer.mk 0 2 0) ">=")
    (by decide) (by decide)

/-- C6: `_test_overlap` is indeterminate (`None`) exactly when either spec's
range is empty/unparsable or either parsed range's low-bound comparator
starts with `<`; in every other case it returns a boolean. -/
theorem claim_C6 :
    ∀ s1 s2 : String,
      _test_overlap s1 s2 = none ↔
        (Range_parse s1 = none ∨ Range_parse s2 = none ∨
          (∃ r, Range_parse s1 = some r ∧ startsWithChar r.op '<' = true) ∨
          (∃ r, Range_parse s2 = some r ∧ startsWithChar r.op '<' = true)) := by
  intro s1 s2
  unfold _test_overlap
  cases h1 : Range_parse s1 with
  | none => simp [_test_overlap_ranges]
  | some r1 =>
    cases h2 : Range_parse s2 with
    | none => simp [_test_overlap_ranges]
    | some r2 =>
      simp only [_test_overlap_ranges]
      by_cases hc : (startsWithChar r1.op '<' || startsWithChar r2.op '<') = true
      · rw [if_pos hc]
        rcases Bool.or_eq_true .. ▸ hc with h | h <;> simp [h]
      · rw [if_neg hc]
        have hc' := hc
        rw [Bool.or_eq_true] at hc'
        push_neg at hc'
        simp only [Bool.not_eq_true] at hc'
        simp [hc'.1, hc'.2]

/-- C7: the exact host pin `1.2.3` against the extension requirement
`^1.0.0` (that is, `>=1.0.0 <2.0.0`) overlaps: the pin's bounds are tested
inclusively while the caret range's high bound stays exclusive. -/
theorem claim_C7 : _test_overlap "1.2.3" "^1.0.0" = some true := by decide

/-- C8: `_is_disabled(name, patterns)` holds exactly when some pattern equals
the name or matches it as a prefix-anchored regular expression; in
particular pattern `foo` disables `foobar` and `foo` itself but not `bar`. -/
theorem claim_C8 :
    (∀ (name : String) (disabled : List String),
        _is_disabled name disabled = true ↔
          ∃ pat ∈ disabled, name = pat ∨ reMatch pat name = true) ∧
    _is_disabled "foobar" ["foo"] = true ∧
    _is_disabled "bar" ["foo"] = false ∧
    _is_disabled "foo" ["foo"] = true := by
  refine ⟨?_, by decide, by decide, by decide⟩
  intro name disabled
  simp [_is_disabled, List.any_eq_true, Bool.or_eq_true, beq_iff_eq]

/-- C9: `_get_package_template` is claimed not to mutate the cached core
template; on the code it does.  The source binds `data =
self.info['core_data']` without copying, so building the template for an
info snapshot with core extension `A` uninstalled strips `A` out of the
cached snapshot itself: the returned template differs from the input
`core_data`, the cached `core_data` aliases that template, and a second
build from the same handler crashes (`KeyError`) instead of seeing the
original source data. -/
theorem claim_C9 :
    _get_package_template infoUninstA fmtFile false = some (tmplUninstA, infoUninstA2) ∧
    infoUninstA2.core_data = tmplUninstA ∧
    tmplUninstA ≠ infoUninstA.core_data ∧
    _get_package_template infoUninstA2 fmtFile false = none :=
  ⟨by decide, rfl, by decide, by decide⟩

/-- C10: `_validate_compatibility` is total exactly under the precondition
that every dependency listed as a core singleton has a pin in the core
dependency map: under it a conflict list is always returned, while a
singleton dependency absent from the core dependencies raises (`KeyError`,
embedded as `none`). -/
theorem claim_C10 :
    (∀ (ext : String) (deps : List (String × String)) (core : PackageData),
        (∀ kv ∈ deps, core.jupyterlab.singletonPackages.contains kv.1 = true →
            (dictLookup core.dependencies kv.1).isSome = true) →
        ∃ l, _validate_compatibility ext deps core = some l) ∧
    _validate_compatibility "E" [("s", "1.0.0")] coreNoPin = none :=
  ⟨fun _ext deps core hpre =>
    validateLoop_total core.dependencies core.jupyterlab.singletonPackages deps hpre,
   by decide⟩

/-- C10 witness: the totality direction applied to a singleton dependency
whose pin is present. -/
theorem claim_C10_witness :
    ∃ l, _validate_compatibility "E" [("s", "3.0.0")] coreHost2 = some l :=
  claim_C10.1 "E" [("s", "3.0.0")] coreHost2 (by decide)

/-- C3 counterexample: with the snapshot recording extensions `{A, B}` and
the current resolution yielding `{A, C}`, `build_check` reports the addition
before the removal — not the claimed
`["B needs to be removed", "C needs to be included"]`. -/
theorem claim_C3_counterexample :
    build_check envDiffAC false =
      some ["C needs to be included", "B needs to be removed"] ∧
    (["C needs to be included", "B needs to be removed"] ≠
      ["B needs to be removed", "C needs to be included"]) :=
  ⟨by decide, by decide⟩

/-- C3 (amended): for every previous snapshot and current resolution where
the snapshot's extensions are `{A, B}`, the current resolution yields
`{A, C}`, and everything else is unchanged, `build_check` returns exactly
the two reasons with the addition first:
`["C needs to be included", "B needs to be removed"]` — per extension kind
the source reports additions before removals. -/
theorem claim_C3 (env : BuildCheckEnv) (fast : Bool) (A B C a1 b1 a2 c2 : String)
    (sd np : PackageData) (info2 : AppInfo)
    (hAB : A ≠ B) (hAC : A ≠ C) (hBC : B ≠ C)
    (hstatic : env.static_pkg = some sd)
    (hold : sd.jupyterlab.extensions = [(A, a1), (B, b1)])
    (htmpl : _get_package_template env.info env.format_path fast = some (np, info2))
    (hnew : np.jupyterlab.extensions = [(A, a2), (C, c2)])
    (hmime : np.jupyterlab.mimeExtensions = sd.jupyterlab.mimeExtensions)
    (hdeps : np.dependencies = sd.dependencies)
    (hnodup : (sd.dependencies.map Prod.fst).Nodup)
    (hlocal : env.info.local_extensions = [])
    (hlinked : env.info.linked_packages = []) :
    build_check env fast =
      some [C ++ " needs to be included", B ++ " needs to be removed"] := by
  have hAB' : (A == B) = false := beq_eq_false_iff_ne.mpr hAB
  have hAC' : (A == C) = false := beq_eq_false_iff_ne.mpr hAC
  have hBC' : (B == C) = false := beq_eq_false_iff_ne.mpr hBC
  have hCB' : (C == B) = false := beq_eq_false_iff_ne.mpr (Ne.symm hBC)
  have h1 : includedMsgs np.jupyterlab.extensions sd.jupyterlab.extensions =
      [C ++ " needs to be included"] := by
    rw [hnew, hold]
    simp [includedMsgs, dictContains, dictLookup, hAC, hBC, hAC', hBC']
  have h2 : removedMsgs np.jupyterlab.extensions sd.jupyterlab.extensions =
      [B ++ " needs to be removed"] := by
    rw [hnew, hold]
    simp [removedMsgs, dictContains, dictLookup, hAB, Ne.symm hBC, hAB', hCB']
  have h3 : includedMsgs np.jupyterlab.mimeExtensions sd.jupyterlab.mimeExtensions = [] := by
    rw [hmime]; exact includedMsgs_self _
  have h4 : removedMsgs np.jupyterlab.mimeExtensions sd.jupyterlab.mimeExtensions = [] := by
    rw [hmime]; exact removedMsgs_self _
  have h5 : depChangedMsgs sd.dependencies np.dependencies
      (env.info.local_extensions.map Prod.fst) (env.info.linked_packages.map Prod.fst) = [] := by
    rw [hdeps]
    exact depChangedMsgs_self _ _ _ hnodup
  have h6 : localChangedMsgs env.check_local fast env.info.local_extensions = [] := by
    rw [hlocal]; simp [localChangedMsgs]
  have h7 : linkedChangedMsgs env.check_local fast env.info.linked_packages = [] := by
    rw [hlinked]; simp [linkedChangedMsgs]
  unfold build_check
  rw [hstatic]
  dsimp only
  rw [looseVersionNe_self]
  simp only [Bool.false_eq_true, if_false]
  rw [htmpl]
  dsimp only
  rw [h1, h2, h3, h4, h5, h6, h7]
  simp

/-- C3 witness: the amended claim applied to the concrete `{A, B}` to
`{A, C}` scenario. -/
theorem claim_C3_witness :
    build_check envDiffAC false =
      some ["C needs to be included", "B needs to be removed"] :=
  claim_C3 envDiffAC false "A" "B" "C" "" "" "" "" staticAB
    infoAC.core_data infoAC (by decide) (by decide) (by decide) rfl rfl (by decide)
    rfl rfl rfl (by decide) rfl rfl

end Ju
